import Mathlib

/-!
Verification of the archival harness in `ligo_residual_analysis_v1_2_7.py`.

The Python module is shallowly embedded: module-level mutable globals become
an explicit `GlobalState` record threaded through the functions, exceptions
become `Except`, file writes become returned `(filename, bytes)` pairs, and
machine arithmetic is `Nat` with explicit reduction modulo `2 ^ 32` where the
SHA-256 compression function needs it.  Python `float` values that reach the
canonical JSON serializer in this module all carry at most two decimal
digits, so they are embedded as exact non-negative hundredths (`Nat`), with
`reprHundredths` reproducing Python's shortest-round-trip `repr` on that
domain (`1.50 ↦ "1.5"`, `0.95 ↦ "0.95"`, `4.0 ↦ "4.0"`).
-/

namespace LigoArchival

/-- 32-bit truncating addition. -/
def add32 (x y : Nat) : Nat := (x + y) % 4294967296

/-- 32-bit right rotation by `n` places. -/
def rotr32 (n x : Nat) : Nat :=
  (x / 2 ^ n + (x % 2 ^ n) * 2 ^ (32 - n)) % 4294967296

/-- 32-bit right shift. -/
def shr32 (n x : Nat) : Nat := x / 2 ^ n

/-- Bitwise XOR (already width-safe on 32-bit inputs). -/
def xor32 (x y : Nat) : Nat := Nat.xor x y

/-- SHA-256 round constants (FIPS 180-4 §4.2.2), written in decimal. -/
def shaK : List Nat :=
  [1116352408, 1899447441, 3049323471, 3921009573, 961987163,
   1508970993, 2453635748, 2870763221, 3624381080, 310598401,
   607225278, 1426881987, 1925078388, 2162078206, 2614888103,
   3248222580, 3835390401, 4022224774, 264347078, 604807628,
   770255983, 1249150122, 1555081692, 1996064986, 2554220882,
   2821834349, 2952996808, 3210313671, 3336571891, 3584528711,
   113926993, 338241895, 666307205, 773529912, 1294757372,
   1396182291, 1695183700, 1986661051, 2177026350, 2456956037,
   2730485921, 2820302411, 3259730800, 3345764771, 3516065817,
   3600352804, 4094571909, 275423344, 430227734, 506948616,
   659060556, 883997877, 958139571, 1322822218, 1537002063,
   1747873779, 1955562222, 2024104815, 2227730452, 2361852424,
   2428436474, 2756734187, 3204031479, 3329325298]

/-- SHA-256 initial hash value (FIPS 180-4 §5.3.3), written in decimal. -/
def shaH0 : List Nat :=
  [1779033703, 3144134277, 1013904242, 2773480762,
   1359893119, 2600822924, 528734635, 1541459225]

/-- Padding: append `0x80`, zero bytes to 56 mod 64, then the bit length
big-endian over 8 bytes. -/
def shaPad (msg : List Nat) : List Nat :=
  let len := msg.length
  let zeros := (64 + 55 - len % 64) % 64
  let bitLen := 8 * len
  msg ++ [0x80] ++ List.replicate zeros 0 ++
    (List.range 8).map (fun i => bitLen / 2 ^ (8 * (7 - i)) % 256)

/-- Split a byte list into big-endian 32-bit words, 16 per block. -/
def bytesToWords : List Nat → List Nat
  | b0 :: b1 :: b2 :: b3 :: rest =>
      (((b0 * 256 + b1) * 256 + b2) * 256 + b3) :: bytesToWords rest
  | _ => []

/-- Message-schedule extension: grow the 16 block words to 64. -/
def shaExtend (w : Array Nat) : Nat → Array Nat
  | 0 => w
  | n + 1 =>
      let w := shaExtend w n
      let t := n + 16
      let x := w.getD (t - 15) 0
      let y := w.getD (t - 2) 0
      let s0 := xor32 (xor32 (rotr32 7 x) (rotr32 18 x)) (shr32 3 x)
      let s1 := xor32 (xor32 (rotr32 17 y) (rotr32 19 y)) (shr32 10 y)
      w.push (add32 (add32 (w.getD (t - 16) 0) s0) (add32 (w.getD (t - 7) 0) s1))

/-- One SHA-256 compression round. -/
def shaRound (st : List Nat) (k wt : Nat) : List Nat :=
  match st with
  | [a, b, c, d, e, f, g, h] =>
      let s1 := xor32 (xor32 (rotr32 6 e) (rotr32 11 e)) (rotr32 25 e)
      let ch := xor32 (Nat.land e f) (Nat.land (4294967295 - e) g)
      let t1 := add32 (add32 (add32 h s1) (add32 ch k)) wt
      let s0 := xor32 (xor32 (rotr32 2 a) (rotr32 13 a)) (rotr32 22 a)
      let mj := xor32 (xor32 (Nat.land a b) (Nat.land a c)) (Nat.land b c)
      let t2 := add32 s0 mj
      [add32 t1 t2, a, b, c, add32 d t1, e, f, g]
  | st => st

/-- Compress one 64-byte block into the running hash. -/
def shaCompress (h : List Nat) (block : List Nat) : List Nat :=
  let w := shaExtend (bytesToWords block).toArray 48
  let final := (shaK.zip w.toList).foldl (fun st kw => shaRound st kw.1 kw.2) h
  (h.zip final).map fun p => add32 p.1 p.2

/-- Fold the compression function over consecutive 64-byte blocks.  The
first argument is fuel bounding the number of blocks; recursion on it is
structural, so the kernel can evaluate the definition.  Each step consumes
64 bytes, so fuel `bytes.length` always suffices. -/
def shaBlocks : Nat → List Nat → List Nat → List Nat
  | _, h, [] => h
  | 0, h, _ => h
  | fuel + 1, h, bytes => shaBlocks fuel (shaCompress h (bytes.take 64)) (bytes.drop 64)

/-- SHA-256 of a byte list, as eight 32-bit words. -/
def sha256Words (msg : List Nat) : List Nat :=
  let padded := shaPad msg
  shaBlocks padded.length shaH0 padded

/-- Lower-case hex digit. -/
def hexDigit (n : Nat) : Char :=
  if n < 10 then Char.ofNat (48 + n) else Char.ofNat (87 + n % 16)

/-- A 32-bit word as eight lower-case hex characters. -/
def wordToHex (w : Nat) : List Char :=
  (List.range 8).map fun i => hexDigit (w / 2 ^ (4 * (7 - i)) % 16)

/-- SHA-256 hex digest (64 lower-case hex characters), as `hashlib`'s
`hexdigest()` produces it. -/
def sha256Hex (msg : List Nat) : String :=
  ⟨(sha256Words msg).flatMap wordToHex⟩

/-- UTF-8 encoding of one code point. -/
def utf8EncodeCp (n : Nat) : List Nat :=
  if n < 0x80 then [n]
  else if n < 0x800 then [0xC0 + n / 64, 0x80 + n % 64]
  else if n < 0x10000 then [0xE0 + n / 4096, 0x80 + n / 64 % 64, 0x80 + n % 64]
  else [0xF0 + n / 262144, 0x80 + n / 4096 % 64, 0x80 + n / 64 % 64, 0x80 + n % 64]

/-- `str.encode("utf-8")` as a byte list. -/
def utf8Bytes (s : String) : List Nat :=
  s.data.flatMap fun c => utf8EncodeCp c.toNat

/-- Python `repr` of a non-negative float carrying at most two decimal
digits, the float being given exactly as a count of hundredths:
`repr(1.5) = "1.5"`, `repr(0.95) = "0.95"`, `repr(4.0) = "4.0"`. -/
def reprHundredths (h : Nat) : String :=
  let ip := h / 100
  let f := h % 100
  if f % 10 = 0 then toString ip ++ "." ++ toString (f / 10)
  else if f < 10 then toString ip ++ ".0" ++ toString f
  else toString ip ++ "." ++ toString f

/-- JSON values as the module serializes them.  Floats appear only with at
most two decimal digits (window bounds), so they are carried exactly as
hundredths. -/
inductive Json where
  | null
  | bool (b : Bool)
  | int (n : Int)
  | dec (hundredths : Nat)
  | str (s : String)
  | arr (xs : List Json)
  | obj (kvs : List (String × Json))

/-- `\uXXXX` escape for a code unit. -/
def uEscape (n : Nat) : List Char :=
  ['\\', 'u', hexDigit (n / 4096 % 16), hexDigit (n / 256 % 16),
   hexDigit (n / 16 % 16), hexDigit (n % 16)]

/-- Escape one character as Python's `json` module does with
`ensure_ascii=True` (`py_encode_basestring_ascii`). -/
def jsonEscapeChar (c : Char) : List Char :=
  let n := c.toNat
  if c = '"' then ['\\', '"']
  else if c = '\\' then ['\\', '\\']
  else if n = 8 then ['\\', 'b']
  else if n = 9 then ['\\', 't']
  else if n = 10 then ['\\', 'n']
  else if n = 12 then ['\\', 'f']
  else if n = 13 then ['\\', 'r']
  else if n < 32 then uEscape n
  else if n < 127 then [c]
  else if n < 65536 then uEscape n
  else uEscape (55296 + (n - 65536) / 1024) ++ uEscape (56320 + (n - 65536) % 1024)

/-- A JSON string literal: quoted, ASCII-escaped. -/
def jsonQuote (s : String) : String :=
  "\"" ++ ⟨s.data.flatMap jsonEscapeChar⟩ ++ "\""

/-- Code-point lexicographic order on character lists: Python's `<` on
`str` (and Lean's, but written structurally so the kernel evaluates it). -/
def charListLt : List Char → List Char → Bool
  | _, [] => false
  | [], _ :: _ => true
  | c :: cs, d :: ds =>
      c.toNat < d.toNat || (c.toNat = d.toNat && charListLt cs ds)

/-- Python's `<` on strings. -/
def strLt (s t : String) : Bool := charListLt s.data t.data

/-- Insert a key/value pair into a key-sorted list of dumped pairs, keeping
the list sorted by key in Unicode code-point order (Python's `sorted` on
`str` keys; stable, so equal keys keep their order). -/
def insertSortedKV (p : String × String) : List (String × String) → List (String × String)
  | [] => [p]
  | q :: qs => if strLt p.1 q.1 then p :: q :: qs else q :: insertSortedKV p qs

/-- Sort dumped key/value pairs by key, as `sort_keys=True` does. -/
def sortKVs (kvs : List (String × String)) : List (String × String) :=
  kvs.foldr insertSortedKV []

/-- Join `"key":value` members with commas. -/
def joinMembers : List (String × String) → String
  | [] => ""
  | [kv] => jsonQuote kv.1 ++ ":" ++ kv.2
  | kv :: kw :: rest => jsonQuote kv.1 ++ ":" ++ kv.2 ++ "," ++ joinMembers (kw :: rest)

mutual
/-- `json.dumps(obj, sort_keys=True, separators=(",", ":"), ensure_ascii=True)`. -/
def dumps : Json → String
  | .null => "null"
  | .bool true => "true"
  | .bool false => "false"
  | .int n => toString n
  | .dec h => reprHundredths h
  | .str s => jsonQuote s
  | .arr xs => "[" ++ dumpsList xs ++ "]"
  | .obj kvs => "\x7b" ++ joinMembers (sortKVs (dumpsKVs kvs)) ++ "\x7d"
  termination_by structural j => j

/-- Comma-joined array elements. -/
def dumpsList : List Json → String
  | [] => ""
  | [x] => dumps x
  | x :: y :: rest => dumps x ++ "," ++ dumpsList (y :: rest)
  termination_by structural l => l

/-- Dump each member's value, keeping the key alongside. -/
def dumpsKVs : List (String × Json) → List (String × String)
  | [] => []
  | (k, v) :: rest => (k, dumps v) :: dumpsKVs rest
  termination_by structural l => l
end

/-- Look a key up in a JSON object (`None` on non-objects). -/
def Json.lookupKey : Json → String → Option Json
  | .obj kvs, k => kvs.lookup k
  | _, _ => none

/-- `Option[str]` to JSON (`None ↦ null`). -/
def jsonOfOptStr : Option String → Json
  | none => .null
  | some s => .str s

/-- Insert into a sorted string list (code-point order). -/
def insertSortedStr (s : String) : List String → List String
  | [] => [s]
  | t :: ts => if strLt s t then s :: t :: ts else t :: insertSortedStr s ts

/-- `sorted(list(xs))` for strings. -/
def sortStrings (l : List String) : List String :=
  l.foldr insertSortedStr []

/-- Python `set.add`: the observed-modes set, modelled as a duplicate-free
list. -/
def insertMode (m : String) (l : List String) : List String :=
  if m ∈ l then l else l ++ [m]

/-! ### Module constants (`ligo_residual_analysis_v1_2_7.py`, lines 37-63) -/

/-- `PINNED_VERSIONS` (line 39). -/
def PINNED_VERSIONS : List (String × String) :=
  [("python", "3.11.9"), ("gwpy", "3.0.8"), ("numpy", "1.26.4"), ("scipy", "1.13.1")]

/-- Dictionary access `PINNED_VERSIONS[name]`. -/
def pinnedVersion (name : String) : String :=
  (PINNED_VERSIONS.lookup name).getD ""

/-- `PREREG_DATE` (line 51). -/
def PREREG_DATE : String := "2025-12-18"

/-- `PREREG_PAYLOAD_LITERAL` (line 52). -/
def PREREG_PAYLOAD_LITERAL : String :=
  "\x7b\"ctrl\":[1.5,1.6],\"echo\":[0.95,1.05]\x7d"

/-- `PREREG_HASH16 = hashlib.sha256(PREREG_PAYLOAD_LITERAL.encode("utf-8")).hexdigest()[:16]` (line 53). -/
def PREREG_HASH16 : String :=
  (sha256Hex (utf8Bytes PREREG_PAYLOAD_LITERAL)).take 16

/-- `WHITEN_FFTLENGTH = 4.0`, in hundredths. -/
def WHITEN_FFTLENGTH : Nat := 400

/-- `WHITEN_OVERLAP = 2.0`, in hundredths. -/
def WHITEN_OVERLAP : Nat := 200

/-- `WHITEN_WINDOW = "hann"`. -/
def WHITEN_WINDOW : String := "hann"

/-! ### Process-wide mutable globals

The module's mutable globals (lines 37, 55-56, 68-72) become one explicit
state record.  `STRICT_ARCHIVAL` and the two window tuples are module
attributes that tests and operators may rebind, so they live here too.
Window bounds are exact hundredths (see `reprHundredths`). -/

structure GlobalState where
  STRICT_ARCHIVAL : Bool
  CONTROL_WINDOW : Nat × Nat
  ECHO_WINDOW : Nat × Nat
  CODE_SHA256 : String
  CODE_SOURCE_MODE : String
  _WHITEN_MODES_SEEN : List String
  _WHITEN_FALLBACK_REASON : Option String
  _WHITEN_FALLBACK_LOGGED : Bool

/-- The globals exactly as the module initializes them at import. -/
def initialState : GlobalState where
  STRICT_ARCHIVAL := true
  CONTROL_WINDOW := (150, 160)
  ECHO_WINDOW := (95, 105)
  CODE_SHA256 := "unknown"
  CODE_SOURCE_MODE := "unknown"
  _WHITEN_MODES_SEEN := []
  _WHITEN_FALLBACK_REASON := none
  _WHITEN_FALLBACK_LOGGED := false

/-- `reset_runtime_state()` (lines 75-80): clears the three whitening
telemetry globals and nothing else; performs no I/O (the embedding returns
only the new state, with no write list). -/
def reset_runtime_state (st : GlobalState) : GlobalState :=
  { st with
    _WHITEN_MODES_SEEN := []
    _WHITEN_FALLBACK_REASON := none
    _WHITEN_FALLBACK_LOGGED := false }

/-! ### Code identity -/

/-- The execution context `get_code_hash_best_effort` probes: either a file
context whose source bytes can be read, no file context (`"__file__" not in
globals()`), or some other failure while probing or reading, carrying the
exception's message. -/
inductive ExecContext where
  | fileCtx (sourceBytes : List Nat)
  | interactive
  | failure (message : String)

/-- `get_code_hash_best_effort()` (lines 87-95).  Total — every context maps
to a returned pair, which is the embedding of "never raises". -/
def get_code_hash_best_effort : ExecContext → String × String
  | .fileCtx bs => (sha256Hex bs, "file")
  | .interactive => ("interactive", "interactive")
  | .failure e => ("error:" ++ e, "error")

/-- `refresh_code_identity()` (lines 98-100). -/
def refresh_code_identity (ctx : ExecContext) (st : GlobalState) : GlobalState :=
  let hm := get_code_hash_best_effort ctx
  { st with CODE_SHA256 := hm.1, CODE_SOURCE_MODE := hm.2 }

/-! ### Strict enforcement gate -/

/-- `enforce_file_based_execution()` (lines 107-112). -/
def enforce_file_based_execution (st : GlobalState) : Except String Unit :=
  if st.STRICT_ARCHIVAL ∧ st.CODE_SOURCE_MODE ≠ "file" then
    .error ("STRICT_ARCHIVAL: Archival runs require file-based execution " ++
      "(cannot verify source integrity in interactive mode).")
  else .ok ()

/-- The live dependency environment the module reads (`sys.version_info`,
`<module>.__version__`, `sys.platform`, `platform.machine()`,
`platform.platform()`, optional `lal`). -/
structure LiveEnv where
  version_major : Nat
  version_minor : Nat
  version_micro : Nat
  gwpy_version : String
  numpy_version : String
  scipy_version : String
  sys_platform : String
  machine : String
  lal_version : Option String
  platform_detail : String

/-- `python_version` as formatted on line 121. -/
def pythonVersionStr (env : LiveEnv) : String :=
  toString env.version_major ++ "." ++ toString env.version_minor ++ "." ++
    toString env.version_micro

/-- `str.split(sep)` for a one-character separator, written structurally
over the character list. -/
def splitOnCharAux (sep : Char) : List Char → List Char → List String
  | [], acc => [⟨acc.reverse⟩]
  | c :: cs, acc =>
      if c = sep then ⟨acc.reverse⟩ :: splitOnCharAux sep cs []
      else splitOnCharAux sep cs (c :: acc)

/-- `s.split(".")` and friends: split on a single-character separator. -/
def splitOnChar (sep : Char) (s : String) : List String :=
  splitOnCharAux sep s.data []

/-- `expected_mm` (line 122): the pinned python version cut to major.minor. -/
def expectedMM : String :=
  String.intercalate "." ((splitOnChar '.' (pinnedVersion "python")).take 2)

/-- `actual_mm` (line 123): the live runtime's major.minor. -/
def actualMM (env : LiveEnv) : String :=
  toString env.version_major ++ "." ++ toString env.version_minor

/-- The python runtime diverges from the pin (major.minor comparison). -/
def pythonDiverges (env : LiveEnv) : Prop := actualMM env ≠ expectedMM

/-- gwpy diverges from the pin (exact string comparison). -/
def gwpyDiverges (env : LiveEnv) : Prop := env.gwpy_version ≠ pinnedVersion "gwpy"

/-- numpy diverges from the pin (exact string comparison). -/
def numpyDiverges (env : LiveEnv) : Prop := env.numpy_version ≠ pinnedVersion "numpy"

/-- scipy diverges from the pin (exact string comparison). -/
def scipyDiverges (env : LiveEnv) : Prop := env.scipy_version ≠ pinnedVersion "scipy"

instance (env : LiveEnv) : Decidable (pythonDiverges env) :=
  instDecidableNot

instance (env : LiveEnv) : Decidable (gwpyDiverges env) :=
  instDecidableNot

instance (env : LiveEnv) : Decidable (numpyDiverges env) :=
  instDecidableNot

instance (env : LiveEnv) : Decidable (scipyDiverges env) :=
  instDecidableNot

/-- The mismatch entry appended for python (lines 126-128). -/
def pythonMismatchLine (env : LiveEnv) : String :=
  "python: expected " ++ expectedMM ++ ".* (reference " ++ pinnedVersion "python" ++
    "), got " ++ pythonVersionStr env

/-- The mismatch entry appended for gwpy (line 131). -/
def gwpyMismatchLine (env : LiveEnv) : String :=
  "gwpy: expected " ++ pinnedVersion "gwpy" ++ ", got " ++ env.gwpy_version

/-- The mismatch entry appended for numpy (line 134). -/
def numpyMismatchLine (env : LiveEnv) : String :=
  "numpy: expected " ++ pinnedVersion "numpy" ++ ", got " ++ env.numpy_version

/-- The mismatch entry appended for scipy (line 137). -/
def scipyMismatchLine (env : LiveEnv) : String :=
  "scipy: expected " ++ pinnedVersion "scipy" ++ ", got " ++ env.scipy_version

/-- The mismatch list `enforce_dependency_versions` accumulates
(lines 119-137), in source order: python (major.minor only), gwpy, numpy,
scipy (exact string equality). -/
def dependencyMismatches (env : LiveEnv) : List String :=
  (if pythonDiverges env then [pythonMismatchLine env] else []) ++
  (if gwpyDiverges env then [gwpyMismatchLine env] else []) ++
  (if numpyDiverges env then [numpyMismatchLine env] else []) ++
  (if scipyDiverges env then [scipyMismatchLine env] else [])

/-- The aggregated failure message raised on lines 140-143. -/
def versionMismatchMessage (mismatches : List String) : String :=
  "STRICT_ARCHIVAL: Dependency version mismatch detected:\n" ++
    String.intercalate "\n" (mismatches.map fun m => "  - " ++ m)

/-- `enforce_dependency_versions()` (lines 115-143). -/
def enforce_dependency_versions (st : GlobalState) (env : LiveEnv) : Except String Unit :=
  if ¬ st.STRICT_ARCHIVAL then .ok ()
  else
    let mismatches := dependencyMismatches env
    if mismatches = [] then .ok ()
    else .error (versionMismatchMessage mismatches)

/-- `current_payload` as computed on lines 153-160: canonical JSON of the
live window globals (`sort_keys=True`, separators `(",", ":")`). -/
def currentPayload (st : GlobalState) : String :=
  dumps (.obj
    [("ctrl", .arr [.dec st.CONTROL_WINDOW.1, .dec st.CONTROL_WINDOW.2]),
     ("echo", .arr [.dec st.ECHO_WINDOW.1, .dec st.ECHO_WINDOW.2])])

/-- `verify_window_preregistration()` (lines 146-178), in state-passing
form.  The source body assigns no global, so the state component is returned
untouched — that is the function's side-effect-freeness, made explicit. -/
def verify_window_preregistration (st : GlobalState) :
    Except String String × GlobalState :=
  let current_payload := currentPayload st
  if st.STRICT_ARCHIVAL ∧ current_payload ≠ PREREG_PAYLOAD_LITERAL then
    (.error ("STRICT_ARCHIVAL: Window preregistration mismatch!\n" ++
      "Expected literal payload: " ++ PREREG_PAYLOAD_LITERAL ++ "\n" ++
      "Computed current payload:  " ++ current_payload), st)
  else
    let computed_hash16 := (sha256Hex (utf8Bytes current_payload)).take 16
    if st.STRICT_ARCHIVAL ∧ computed_hash16 ≠ PREREG_HASH16 then
      (.error ("STRICT_ARCHIVAL: Window preregistration hash mismatch!\n" ++
        "Expected hash16 (" ++ PREREG_DATE ++ "): " ++ PREREG_HASH16 ++ "\n" ++
        "Computed hash16:              " ++ computed_hash16), st)
    else (.ok computed_hash16, st)

/-- `initialize_strict_archival_or_fail()` (lines 181-187): identity
refresh, then the three gate checks in order, first failure aborting. -/
def initialize_strict_archival_or_fail (ctx : ExecContext) (env : LiveEnv)
    (st : GlobalState) : Except String Unit × GlobalState :=
  let st := refresh_code_identity ctx st
  if st.STRICT_ARCHIVAL then
    match enforce_file_based_execution st with
    | .error e => (.error e, st)
    | .ok _ =>
      match enforce_dependency_versions st env with
      | .error e => (.error e, st)
      | .ok _ =>
        match (verify_window_preregistration st).1 with
        | .error e => (.error e, st)
        | .ok _ => (.ok (), st)
  else (.ok (), st)

/-! ### Whitening (determinism enforcement) -/

/-- The kind of Python exception a whiten call can surface: the
signature-mismatch class (`TypeError`), the module's own fatal error
(`RuntimeError`), or any other exception kind, each with its message. -/
inductive PyErr where
  | typeError (msg : String)
  | runtimeError (msg : String)
  | other (msg : String)

/-- A call made on the pluggable processing object: the pinned four-keyword
convention `whiten(asd=…, fftlength=…, overlap=…, window=…)` or the reduced
`whiten(asd=…)` fallback.  `α` is the opaque type of the reference-spectrum
object. -/
inductive WhitenCall (α : Type) where
  | pinned (asd : α) (fftlength : Nat) (overlap : Nat) (window : String)
  | asdOnly (asd : α)

/-- `whiten_pinned(ts, asd)` (lines 193-222).  The processing object `ts`
is its `whiten` method, a function from a call to a result or an exception.
Besides the result and the new state, the embedding returns the list of
calls actually made on `ts`, in order, so that "no fallback call is made"
is expressible.  The one-time console note of the non-strict path is not
modelled (it writes nothing to the record). -/
def whiten_pinned {α β : Type} (ts : WhitenCall α → Except PyErr β) (asd : α)
    (st : GlobalState) : Except PyErr β × GlobalState × List (WhitenCall α) :=
  let call := WhitenCall.pinned asd WHITEN_FFTLENGTH WHITEN_OVERLAP WHITEN_WINDOW
  match ts call with
  | .ok res =>
      (.ok res,
       { st with _WHITEN_MODES_SEEN := insertMode "pinned_kwargs" st._WHITEN_MODES_SEEN },
       [call])
  | .error (.typeError e) =>
      let st1 := { st with
        _WHITEN_MODES_SEEN := insertMode "asd_only_fallback" st._WHITEN_MODES_SEEN,
        _WHITEN_FALLBACK_REASON := some (st._WHITEN_FALLBACK_REASON.getD e) }
      if st1.STRICT_ARCHIVAL then
        (.error (.runtimeError ("STRICT_ARCHIVAL: Whitening fallback not allowed. " ++ e)),
         st1, [call])
      else
        let st2 := { st1 with _WHITEN_FALLBACK_LOGGED := true }
        (ts (WhitenCall.asdOnly asd), st2, [call, WhitenCall.asdOnly asd])
  | .error e => (.error e, st, [call])

/-- The `_StubTS.whiten` of `strict_selfcheck_whitening_path`
(lines 230-236): accepts any call carrying the four pinned keywords,
rejects a call missing them with a `TypeError`. -/
def stubWhiten : WhitenCall Unit → Except PyErr String
  | .pinned _ _ _ _ => .ok "ok"
  | .asdOnly _ => .error (.typeError "Missing pinned whitening kwargs")

/-- `strict_selfcheck_whitening_path()` (lines 225-238). -/
def strict_selfcheck_whitening_path (st : GlobalState) :
    Except PyErr String × GlobalState × List (WhitenCall Unit) :=
  whiten_pinned stubWhiten () st

/-! ### Forensic artifacts -/

/-- A UTC wall-clock instant at second precision, as
`datetime.datetime.utcnow().replace(microsecond=0)` yields it. -/
structure Timestamp where
  year : Nat
  month : Nat
  day : Nat
  hour : Nat
  minute : Nat
  second : Nat

/-- Zero-padded two-digit field. -/
def pad2 (n : Nat) : String :=
  if n < 10 then "0" ++ toString n else toString n

/-- Zero-padded four-digit year. -/
def pad4 (n : Nat) : String :=
  if n < 10 then "000" ++ toString n
  else if n < 100 then "00" ++ toString n
  else if n < 1000 then "0" ++ toString n
  else toString n

/-- `utcnow().replace(microsecond=0).isoformat() + "Z"` (line 301). -/
def isoZ (t : Timestamp) : String :=
  pad4 t.year ++ "-" ++ pad2 t.month ++ "-" ++ pad2 t.day ++ "T" ++
    pad2 t.hour ++ ":" ++ pad2 t.minute ++ ":" ++ pad2 t.second ++ "Z"

/-- `utcnow().strftime("%Y%m%dT%H%M%SZ")` (line 306). -/
def compactTimestamp (t : Timestamp) : String :=
  pad4 t.year ++ pad2 t.month ++ pad2 t.day ++ "T" ++
    pad2 t.hour ++ pad2 t.minute ++ pad2 t.second ++ "Z"

/-- `_dump_json_bytes(obj)` (lines 245-251): canonical JSON, UTF-8 bytes. -/
def _dump_json_bytes (obj : Json) : List Nat :=
  utf8Bytes (dumps obj)

/-- What one call to `write_run_record` writes: the two records and, for
each, the filename and the exact bytes handed to `open(..., "wb").write`. -/
structure WriteOutcome where
  record_stable : Json
  record_unique : Json
  audit_filename : String
  audit_bytes : List Nat
  stable_filename : String
  stable_bytes : List Nat

/-- The `environment` sub-object of the stable record (lines 274-283). -/
def stableEnvironmentKVs (env : LiveEnv) : List (String × Json) :=
  [("python", .str (pythonVersionStr env)),
   ("os", .str env.sys_platform),
   ("arch", .str env.machine),
   ("numpy", .str env.numpy_version),
   ("scipy", .str env.scipy_version),
   ("gwpy", .str env.gwpy_version),
   ("lal", jsonOfOptStr env.lal_version)]

/-- The key/value pairs of `record_stable` (lines 269-298). -/
def recordStableKVs (fingerprint_short full_hash : String)
    (config results qc_stats rng_meta : Json) (st : GlobalState) (env : LiveEnv)
    (prereg_hash16 : String) : List (String × Json) :=
  [("run_fingerprint_short", .str fingerprint_short),
   ("run_fingerprint_sha256", .str full_hash),
   ("code_sha256", .str st.CODE_SHA256),
   ("code_source_mode", .str st.CODE_SOURCE_MODE),
   ("environment", .obj (stableEnvironmentKVs env)),
   ("execution_flags", .obj
     [("strict_archival", .bool st.STRICT_ARCHIVAL),
      ("whitening_modes_seen", .arr ((sortStrings st._WHITEN_MODES_SEEN).map .str)),
      ("whiten_fallback_reason", jsonOfOptStr st._WHITEN_FALLBACK_REASON)]),
   ("preregistration", .obj
     [("date", .str PREREG_DATE),
      ("payload_literal", .str PREREG_PAYLOAD_LITERAL),
      ("hash16", .str prereg_hash16)]),
   ("rng_meta", rng_meta),
   ("qc_stats", qc_stats),
   ("results", results),
   ("configuration", config)]

/-- `write_run_record(...)` (lines 254-317).  File writes become the
returned `WriteOutcome`; a `RuntimeError` from the preregistration
re-verification propagates as `.error`, in which case nothing is written.
The audit record is `dict(record_stable)` plus `utc_timestamp`, with its
`environment` replaced by a fresh copy extended with `platform_detail`
(lines 300-304), so the stable record's own environment object is never
touched. -/
def write_run_record (fingerprint_short full_hash : String)
    (config results qc_stats rng_meta : Json) (st : GlobalState) (env : LiveEnv)
    (now : Timestamp) : Except String WriteOutcome :=
  match (verify_window_preregistration st).1 with
  | .error e => .error e
  | .ok prereg_hash16 =>
      let stableKVs := recordStableKVs fingerprint_short full_hash config results
        qc_stats rng_meta st env prereg_hash16
      let record_stable := Json.obj stableKVs
      let uniqueEnv := Json.obj
        (stableEnvironmentKVs env ++ [("platform_detail", .str env.platform_detail)])
      let record_unique := Json.obj
        ((stableKVs.map fun kv =>
            if kv.1 = "environment" then (kv.1, uniqueEnv) else kv) ++
          [("utc_timestamp", .str (isoZ now))])
      let ts_str := compactTimestamp now
      .ok { record_stable := record_stable
            record_unique := record_unique
            audit_filename := "run_record_" ++ fingerprint_short ++ "_" ++ ts_str ++ ".json"
            audit_bytes := _dump_json_bytes record_unique
            stable_filename := "run_record_LATEST.json"
            stable_bytes := _dump_json_bytes record_stable }

/-! ### Concrete fixtures used by witnesses and counterexamples -/

/-- A live environment agreeing with every pinned version. -/
def envPinned : LiveEnv where
  version_major := 3
  version_minor := 11
  version_micro := 9
  gwpy_version := "3.0.8"
  numpy_version := "1.26.4"
  scipy_version := "1.13.1"
  sys_platform := "linux"
  machine := "x86_64"
  lal_version := none
  platform_detail := "Linux-6.1.0-x86_64-with-glibc2.36"

/-- A live environment with two divergences: python 3.12 and numpy 2.0.0. -/
def envTwoMismatches : LiveEnv :=
  { envPinned with version_minor := 12, numpy_version := "2.0.0" }

/-- A fixed wall-clock instant. -/
def now1 : Timestamp := ⟨2025, 12, 18, 3, 4, 5⟩

/-- A second, different wall-clock instant. -/
def now2 : Timestamp := ⟨2026, 1, 2, 23, 59, 59⟩

/-- A processing object whose whiten method rejects every calling
convention with a `TypeError` (the repository test's
`mock_ts.whiten.side_effect = TypeError("Bad kwarg")`). -/
def tsRejecting : WhitenCall Unit → Except PyErr String :=
  fun _ => .error (.typeError "Bad kwarg")

/-- The runtime state after `reset_runtime_state` followed by one
successful pinned whitening invocation (the self-check stub). -/
def stAfterPinned : GlobalState :=
  (strict_selfcheck_whitening_path (reset_runtime_state initialState)).2.1

/-- Shipped state with `CONTROL_WINDOW` mutated to `(1.5, 1.61)`. -/
def stMutatedWindow : GlobalState :=
  { initialState with CONTROL_WINDOW := (150, 161) }

/-- Non-strict state with the same mutated control window. -/
def stNonStrictDivergent : GlobalState :=
  { initialState with STRICT_ARCHIVAL := false, CONTROL_WINDOW := (150, 161) }

/-- Unwrap a write result, with a default for the error case. -/
def okOr (d : WriteOutcome) : Except String WriteOutcome → WriteOutcome
  | .ok o => o
  | .error _ => d

/-- The concrete outcome of a fixed write in the post-self-check state. -/
def fixtureOutcome : WriteOutcome :=
  okOr ⟨.null, .null, "", [], "", []⟩
    (write_run_record "fp" "hash" .null .null .null .null stAfterPinned envPinned now1)

/-- The concrete outcome of a fixed write in the shipped state. -/
def fixtureOutcome0 : WriteOutcome :=
  okOr ⟨.null, .null, "", [], "", []⟩
    (write_run_record "fp" "hash" .null .null .null .null initialState envPinned now1)

/-! ## Claims -/

set_option maxRecDepth 100000

/-- C1: two `write_run_record` calls with identical arguments, identical
runtime state and the same environment write byte-identical contents to the
Stable file `run_record_LATEST.json`, even when the wall-clock time at the
two calls differs. -/
theorem stable_bytes_time_invariant
    (fingerprint_short full_hash : String) (config results qc_stats rng_meta : Json)
    (st : GlobalState) (env : LiveEnv) (t1 t2 : Timestamp) :
    (write_run_record fingerprint_short full_hash config results qc_stats rng_meta
        st env t1).map (fun o => (o.stable_filename, o.stable_bytes)) =
      (write_run_record fingerprint_short full_hash config results qc_stats rng_meta
        st env t2).map (fun o => (o.stable_filename, o.stable_bytes)) := by
  unfold write_run_record
  cases (verify_window_preregistration st).1 <;> rfl

/-- C2: when the pinned four-keyword whiten call fails with a `TypeError`
and strict mode is on, `whiten_pinned` raises the DeterminismViolation
(`RuntimeError`) and the reduced `asd`-only fallback call is never made: the
pinned call is the only call issued to the processing object. -/
theorem whiten_pinned_strict_no_fallback {α β : Type}
    (ts : WhitenCall α → Except PyErr β) (asd : α) (st : GlobalState) (e : String)
    (hstrict : st.STRICT_ARCHIVAL = true)
    (hreject : ts (WhitenCall.pinned asd WHITEN_FFTLENGTH WHITEN_OVERLAP WHITEN_WINDOW) =
      .error (.typeError e)) :
    (whiten_pinned ts asd st).1 =
        .error (.runtimeError ("STRICT_ARCHIVAL: Whitening fallback not allowed. " ++ e)) ∧
      (whiten_pinned ts asd st).2.2 =
        [WhitenCall.pinned asd WHITEN_FFTLENGTH WHITEN_OVERLAP WHITEN_WINDOW] ∧
      ∀ a : α, WhitenCall.asdOnly a ∉ (whiten_pinned ts asd st).2.2 := by
  unfold whiten_pinned
  dsimp only
  rw [hreject]
  simp [hstrict]

/-- Witness for C2 at a processing object that rejects every call with
`TypeError "Bad kwarg"`, in the shipped (strict) state. -/
theorem whiten_pinned_strict_no_fallback_witness :
    (whiten_pinned tsRejecting () initialState).1 =
        .error (.runtimeError "STRICT_ARCHIVAL: Whitening fallback not allowed. Bad kwarg") ∧
      (whiten_pinned tsRejecting () initialState).2.2 =
        [WhitenCall.pinned () WHITEN_FFTLENGTH WHITEN_OVERLAP WHITEN_WINDOW] :=
  ⟨(whiten_pinned_strict_no_fallback tsRejecting () initialState "Bad kwarg" rfl rfl).1,
   (whiten_pinned_strict_no_fallback tsRejecting () initialState "Bad kwarg" rfl rfl).2.1⟩

/-- C3: with the shipped windows, `verify_window_preregistration` returns
the first 16 hex characters of the SHA-256 of the exact commitment string,
equal to `PREREG_HASH16`; with `CONTROL_WINDOW` mutated to `(1.5, 1.61)`
under strict mode it fails with the PreregistrationViolation. -/
theorem verify_preregistration_shipped_and_mutated :
    (verify_window_preregistration initialState).1 =
        .ok ((sha256Hex (utf8Bytes PREREG_PAYLOAD_LITERAL)).take 16) ∧
      (sha256Hex (utf8Bytes PREREG_PAYLOAD_LITERAL)).take 16 = PREREG_HASH16 ∧
      ∃ msg, (verify_window_preregistration stMutatedWindow).1 = .error msg :=
  ⟨by rfl, rfl, ⟨_, by rfl⟩⟩

/-- C4: under strict mode, `enforce_dependency_versions` returns normally
exactly when no entry diverges; when at least one entry diverges it fails
with the single aggregated message built from the mismatch list, and every
diverging entry's line is in that list (not only the first). -/
theorem enforce_dependency_versions_aggregates (st : GlobalState) (env : LiveEnv)
    (hstrict : st.STRICT_ARCHIVAL = true) :
    ((¬ pythonDiverges env ∧ ¬ gwpyDiverges env ∧ ¬ numpyDiverges env ∧
        ¬ scipyDiverges env) → enforce_dependency_versions st env = .ok ()) ∧
      ((pythonDiverges env ∨ gwpyDiverges env ∨ numpyDiverges env ∨ scipyDiverges env) →
        enforce_dependency_versions st env =
          .error (versionMismatchMessage (dependencyMismatches env))) ∧
      (pythonDiverges env → pythonMismatchLine env ∈ dependencyMismatches env) ∧
      (gwpyDiverges env → gwpyMismatchLine env ∈ dependencyMismatches env) ∧
      (numpyDiverges env → numpyMismatchLine env ∈ dependencyMismatches env) ∧
      (scipyDiverges env → scipyMismatchLine env ∈ dependencyMismatches env) := by
  unfold enforce_dependency_versions dependencyMismatches
  simp only [hstrict]
  by_cases h1 : pythonDiverges env <;> by_cases h2 : gwpyDiverges env <;>
    by_cases h3 : numpyDiverges env <;> by_cases h4 : scipyDiverges env <;>
    simp [h1, h2, h3, h4]

/-- Witness for C4 in the shipped state at an environment with two
divergences (python 3.12, numpy 2.0.0): the failure is the aggregate of the
mismatch list and both entries' lines are in it. -/
theorem enforce_dependency_versions_aggregates_witness :
    enforce_dependency_versions initialState envTwoMismatches =
        .error (versionMismatchMessage (dependencyMismatches envTwoMismatches)) ∧
      pythonMismatchLine envTwoMismatches ∈ dependencyMismatches envTwoMismatches ∧
      numpyMismatchLine envTwoMismatches ∈ dependencyMismatches envTwoMismatches :=
  ⟨(enforce_dependency_versions_aggregates initialState envTwoMismatches rfl).2.1
      (Or.inl (by decide)),
   (enforce_dependency_versions_aggregates initialState envTwoMismatches rfl).2.2.1
      (by decide),
   (enforce_dependency_versions_aggregates initialState envTwoMismatches rfl).2.2.2.2.1
      (by decide)⟩

/-- C5 counterexample: starting from reset state, after one successful
pinned whitening invocation the Stable artifact's
`execution_flags.whitening_modes_seen` is `["pinned_kwargs"]`, not
`["pinned"]` as the claim states. -/
theorem whitening_modes_seen_not_pinned :
    (write_run_record "fp" "hash" .null .null .null .null stAfterPinned envPinned
        now1 = .ok fixtureOutcome) ∧
      (fixtureOutcome.record_stable.lookupKey "execution_flags").bind
          (fun j => j.lookupKey "whitening_modes_seen") ≠
        some (.arr [.str "pinned"]) := by
  refine ⟨by rfl, ?_⟩
  rw [show (fixtureOutcome.record_stable.lookupKey "execution_flags").bind
      (fun j => j.lookupKey "whitening_modes_seen") =
        some (.arr [.str "pinned_kwargs"]) by rfl]
  simp

/-- C5 as amended: starting from reset runtime state, after one successful
invocation of the pinned whitening calling convention, the Stable
artifact's `execution_flags.whitening_modes_seen` equals exactly the
sorted, deduplicated list `["pinned_kwargs"]`. -/
theorem whitening_modes_seen_after_pinned {α β : Type}
    (ts : WhitenCall α → Except PyErr β) (asd : α) (st0 : GlobalState) (r : β)
    (fs fh : String) (config results qc_stats rng_meta : Json) (env : LiveEnv)
    (now : Timestamp) (o : WriteOutcome)
    (hok : ts (WhitenCall.pinned asd WHITEN_FFTLENGTH WHITEN_OVERLAP WHITEN_WINDOW) = .ok r)
    (hw : write_run_record fs fh config results qc_stats rng_meta
        (whiten_pinned ts asd (reset_runtime_state st0)).2.1 env now = .ok o) :
    (o.record_stable.lookupKey "execution_flags").bind
        (fun j => j.lookupKey "whitening_modes_seen") =
      some (.arr [.str "pinned_kwargs"]) := by
  have hstate : (whiten_pinned ts asd (reset_runtime_state st0)).2.1 =
      { reset_runtime_state st0 with _WHITEN_MODES_SEEN := ["pinned_kwargs"] } := by
    unfold whiten_pinned
    dsimp only
    rw [hok]
    rfl
  rw [hstate] at hw
  unfold write_run_record at hw
  revert hw
  cases (verify_window_preregistration
      { reset_runtime_state st0 with _WHITEN_MODES_SEEN := ["pinned_kwargs"] }).1 with
  | error e => intro hw; exact absurd hw (by simp)
  | ok h16 =>
      intro hw
      injection hw with hw
      subst hw
      rfl

/-- Witness for the amended C5 at the self-check stub, shipped state, and a
concrete write. -/
theorem whitening_modes_seen_after_pinned_witness :
    (fixtureOutcome.record_stable.lookupKey "execution_flags").bind
        (fun j => j.lookupKey "whitening_modes_seen") =
      some (.arr [.str "pinned_kwargs"]) :=
  whitening_modes_seen_after_pinned stubWhiten () initialState "ok"
    "fp" "hash" .null .null .null .null envPinned now1 fixtureOutcome rfl (by rfl)

/-- C6: the Stable record has no `utc_timestamp` field; the Audit record
always has `utc_timestamp` and `environment.platform_detail`; and the
Stable record's own environment object ends up with no `platform_detail`
key (building the Audit record extends a copied environment). -/
theorem stable_audit_field_placement
    (fs fh : String) (config results qc_stats rng_meta : Json) (st : GlobalState)
    (env : LiveEnv) (now : Timestamp) (o : WriteOutcome)
    (hw : write_run_record fs fh config results qc_stats rng_meta st env now = .ok o) :
    o.record_stable.lookupKey "utc_timestamp" = none ∧
      o.record_unique.lookupKey "utc_timestamp" = some (.str (isoZ now)) ∧
      (o.record_unique.lookupKey "environment").bind
          (fun j => j.lookupKey "platform_detail") = some (.str env.platform_detail) ∧
      (o.record_stable.lookupKey "environment").bind
          (fun j => j.lookupKey "platform_detail") = none := by
  unfold write_run_record at hw
  revert hw
  cases (verify_window_preregistration st).1 with
  | error e => intro hw; exact absurd hw (by simp)
  | ok h16 =>
      intro hw
      injection hw with hw
      subst hw
      refine ⟨?_, ?_, ?_, ?_⟩ <;> rfl

/-- Witness for C6 at concrete arguments in the shipped state. -/
theorem stable_audit_field_placement_witness :
    fixtureOutcome0.record_stable.lookupKey "utc_timestamp" = none ∧
      fixtureOutcome0.record_unique.lookupKey "utc_timestamp" =
        some (.str (isoZ now1)) :=
  ⟨(stable_audit_field_placement "fp" "hash" .null .null .null .null
      initialState envPinned now1 fixtureOutcome0 (by rfl)).1,
   (stable_audit_field_placement "fp" "hash" .null .null .null .null
      initialState envPinned now1 fixtureOutcome0 (by rfl)).2.1⟩

/-- C7: `get_code_hash_best_effort` never raises — it is total, and for
every execution context its value is the one the contract names: content
hash of the source bytes with mode `"file"`, the `"interactive"` sentinel
pair, or the `"error:<message>"` sentinel with mode `"error"`. -/
theorem get_code_hash_best_effort_total (ctx : ExecContext) :
    (∃ bs, ctx = .fileCtx bs ∧
        get_code_hash_best_effort ctx = (sha256Hex bs, "file")) ∨
      (ctx = .interactive ∧
        get_code_hash_best_effort ctx = ("interactive", "interactive")) ∨
      (∃ e, ctx = .failure e ∧
        get_code_hash_best_effort ctx = ("error:" ++ e, "error")) := by
  cases ctx with
  | fileCtx bs => exact .inl ⟨bs, rfl, rfl⟩
  | interactive => exact .inr (.inl ⟨rfl, rfl⟩)
  | failure e => exact .inr (.inr ⟨e, rfl, rfl⟩)

/-- C8: `verify_window_preregistration` is side-effect-free and idempotent:
for every global state it returns the state unchanged, and a second call in
the state left by the first returns the same value. -/
theorem verify_preregistration_pure_idempotent (st : GlobalState) :
    (verify_window_preregistration st).2 = st ∧
      (verify_window_preregistration ((verify_window_preregistration st).2)).1 =
        (verify_window_preregistration st).1 := by
  have h2 : (verify_window_preregistration st).2 = st := by
    unfold verify_window_preregistration
    dsimp only
    split_ifs <;> rfl
  exact ⟨h2, by rw [h2]⟩

/-- C9: `reset_runtime_state` empties the observed-modes set, clears the
fallback reason, clears the fallback-reported flag, and changes nothing
else — in particular `CODE_SHA256`, `CODE_SOURCE_MODE`, the strict flag and
the window globals are untouched (and the embedding returns no writes: no
I/O). -/
theorem reset_runtime_state_frame (st : GlobalState) :
    (reset_runtime_state st)._WHITEN_MODES_SEEN = [] ∧
      (reset_runtime_state st)._WHITEN_FALLBACK_REASON = none ∧
      (reset_runtime_state st)._WHITEN_FALLBACK_LOGGED = false ∧
      (reset_runtime_state st).CODE_SHA256 = st.CODE_SHA256 ∧
      (reset_runtime_state st).CODE_SOURCE_MODE = st.CODE_SOURCE_MODE ∧
      (reset_runtime_state st).STRICT_ARCHIVAL = st.STRICT_ARCHIVAL ∧
      (reset_runtime_state st).CONTROL_WINDOW = st.CONTROL_WINDOW ∧
      (reset_runtime_state st).ECHO_WINDOW = st.ECHO_WINDOW :=
  ⟨rfl, rfl, rfl, rfl, rfl, rfl, rfl, rfl⟩

/-- C10: with strict mode off, `verify_window_preregistration` never fails
and returns the truncated hash of the live recomputed payload, whatever the
window values; `write_run_record` therefore succeeds, and its Stable
record's `preregistration.hash16` is the live payload's hash while
`preregistration.payload_literal` stays the frozen literal. -/
theorem nonstrict_preregistration_decoupled
    (fs fh : String) (config results qc_stats rng_meta : Json) (st : GlobalState)
    (env : LiveEnv) (now : Timestamp)
    (hns : st.STRICT_ARCHIVAL = false) :
    (verify_window_preregistration st).1 =
        .ok ((sha256Hex (utf8Bytes (currentPayload st))).take 16) ∧
      ∃ o, write_run_record fs fh config results qc_stats rng_meta st env now = .ok o ∧
        (o.record_stable.lookupKey "preregistration").bind
            (fun j => j.lookupKey "hash16") =
          some (.str ((sha256Hex (utf8Bytes (currentPayload st))).take 16)) ∧
        (o.record_stable.lookupKey "preregistration").bind
            (fun j => j.lookupKey "payload_literal") =
          some (.str PREREG_PAYLOAD_LITERAL) := by
  have hv : (verify_window_preregistration st).1 =
      .ok ((sha256Hex (utf8Bytes (currentPayload st))).take 16) := by
    unfold verify_window_preregistration
    dsimp only
    rw [hns]
    simp
  refine ⟨hv, ?_⟩
  unfold write_run_record
  rw [hv]
  exact ⟨_, rfl, rfl, rfl⟩

/-- Witness for C10 at the non-strict state whose control window diverges
from the commitment: the run succeeds and the live hash differs from the
frozen `PREREG_HASH16`, so the artifact's two preregistration fields do not
correspond. -/
theorem nonstrict_preregistration_decoupled_witness :
    ((verify_window_preregistration stNonStrictDivergent).1 =
        .ok ((sha256Hex (utf8Bytes (currentPayload stNonStrictDivergent))).take 16)) ∧
      (sha256Hex (utf8Bytes (currentPayload stNonStrictDivergent))).take 16 ≠
        PREREG_HASH16 :=
  ⟨(nonstrict_preregistration_decoupled "fp" "hash" .null .null .null .null
      stNonStrictDivergent envPinned now1 rfl).1,
   by decide⟩

end LigoArchival
